import Mathlib

/-!
Shallow embedding of the StudyTime data layer (`src/main.py`) and proofs
about it.  The program persists subjects and study sessions in SQLite;
here the store is modelled as explicit state (`DBState` for the two entity
tables, `Catalog` for the schema catalog and the `meta_info` rows), SQL
statements become pure state transformers, Python exceptions become
`Except`, timestamps become `Nat` (the ISO-8601 strings written by
`datetime.now(tz=timezone.utc).isoformat()` order like the instants they
denote), and the `uuid4()` retry loop draws candidate identifiers from an
explicit stream `gen : Nat → String`.
-/

deriving instance DecidableEq for Except

/-- A row of the `dim_subject` table (`db_write_dim_subject`). -/
structure Subject where
  subject_id : String
  subject_name : String
  added_time : Nat
  updated_time : Nat
deriving Repr, DecidableEq

/-- A row of the `fact_session` table (`db_write_fact_session`); `end_time`
and `duration` are NULL (`none`) while a session is in progress. -/
structure Session where
  session_id : String
  subject_id : String
  start_time : Nat
  end_time : Option Nat
  duration : Option Int
deriving Repr, DecidableEq

/-- The contents of the two entity tables of the store. -/
structure DBState where
  subjects : List Subject
  sessions : List Session
deriving Repr, DecidableEq

/-- The recoverable error taxonomy of the repository operations (the
Python code reports these with `self.app.notify(...)`). -/
inductive SubjectError where
  | EmptyName
  | DuplicateName
  | NoChange
  | NotFound
deriving Repr, DecidableEq

/-- Auxiliary for `pyStrip`: drop leading whitespace characters. -/
def stripLeftChars : List Char → List Char
  | [] => []
  | c :: cs => if c.isWhitespace then stripLeftChars cs else c :: cs

/-- Python `str.strip()` with no argument: remove leading and trailing
whitespace. -/
def pyStrip (s : String) : String :=
  ⟨(stripLeftChars (stripLeftChars s.data).reverse).reverse⟩

/-- Python `str.lower()`: lower-case every character. -/
def pyLower (s : String) : String :=
  ⟨s.data.map Char.toLower⟩

/-- The result of `SELECT subject_id FROM dim_subject;` (the set
`subject_ids` in `AddSubjectScreen.on_input_submitted`). -/
def subjectIds (st : DBState) : List String :=
  st.subjects.map (fun s => s.subject_id)

/-- The result of `SELECT subject_name FROM dim_subject;` with every name
lower-cased (the set `subject_names` in the add/edit screens). -/
def subjectNamesLower (st : DBState) : List String :=
  st.subjects.map (fun s => pyLower s.subject_name)

/-- The repository read `listSubjects` (`SELECT ... FROM dim_subject;` as
issued by `SubjectsScreen.refresh_table`). -/
def listSubjects (st : DBState) : List Subject :=
  st.subjects

/-- The repository read `listSessions` (all rows of `fact_session`). -/
def listSessions (st : DBState) : List Session :=
  st.sessions

/-! ## Configuration loader (`Config.__init__`) -/

/-- A JSON scalar as it can appear in `config.json`. -/
inductive JsonValue where
  | str (s : String)
  | num (n : Int)
deriving Repr, DecidableEq

/-- Python `KeyError`, raised by `raw_settings[k]` when `k` is absent. -/
inductive ConfigError where
  | KeyError (k : String)
deriving Repr, DecidableEq

/-- The parsed settings file: a finite key/value map (a JSON object). -/
def RawSettings : Type := List (String × JsonValue)

/-- Python `k in raw_settings`. -/
def hasKey (raw : RawSettings) (k : String) : Bool :=
  (List.find? (fun p => p.1 = k) raw).isSome

/-- Python `raw_settings[k]`: the value when present, `KeyError` when not. -/
def getItem (raw : RawSettings) (k : String) : Except ConfigError JsonValue :=
  match List.find? (fun p => p.1 = k) raw with
  | some p => Except.ok p.2
  | none => Except.error (ConfigError.KeyError k)

/-- The three fields `Config.__init__` assigns. -/
structure Config where
  database_file : JsonValue
  version : JsonValue
  theme : JsonValue
deriving Repr, DecidableEq

/-- `Config.__init__` after `raw_settings` has been loaded (a missing file
yields `raw_settings = dict()`, i.e. the empty list here).  Each field is a
conditional expression `default if key not in raw_settings else
raw_settings[access_key]`; note the source checks the key
`"database_file"` but then subscripts with `"database-file"`. -/
def configInit (raw : RawSettings) : Except ConfigError Config := do
  let database_file ←
    if ¬ hasKey raw "database_file" then pure (JsonValue.str "studytime.db")
    else getItem raw "database-file"
  let version ←
    if ¬ hasKey raw "version" then pure (JsonValue.num 1)
    else getItem raw "version"
  let theme ←
    if ¬ hasKey raw "theme" then pure (JsonValue.str "unipd-dark")
    else getItem raw "theme"
  pure ⟨database_file, version, theme⟩

/-! ## Schema manager (`Database`) -/

/-- The part of the SQLite file the schema manager looks at: the names in
`sqlite_master` (in creation order) and the rows of `meta_info`. -/
structure Catalog where
  tables : List String
  metaRows : List (String × String)
deriving Repr, DecidableEq

/-- Errors the schema manager can raise: the unreachable
`NotImplementedError` of `db_validate_meta_info`, and the `IndexError`
that `meta_info_version_check[0][0]` raises on an empty query result. -/
inductive MetaError where
  | NotImplementedError
  | IndexError
deriving Repr, DecidableEq

/-- `Database.db_write_meta_info`: `CREATE TABLE meta_info(...)` followed by
`INSERT INTO meta_info VALUES('Version', str(self.version));`. -/
def db_write_meta_info (version : Nat) (cat : Catalog) : Catalog :=
  { tables := cat.tables ++ ["meta_info"],
    metaRows := [("Version", toString version)] }

/-- The query `SELECT value FROM meta_info WHERE key = 'Version';`. -/
def metaVersionQuery (rows : List (String × String)) : List String :=
  (rows.filter (fun r => r.1 = "Version")).map (fun r => r.2)

/-- `Database.db_validate_meta_info`.  The Python guard is
`if not (len(check) or int(check[0][0]) == self.version): raise
NotImplementedError`.  A non-empty result makes `len(check)` truthy, the
`or` short-circuits, the guard is false and nothing is raised — the stored
version is never compared with `version`.  An empty result evaluates
`check[0][0]`, which raises `IndexError`; the `raise NotImplementedError`
line is unreachable. -/
def db_validate_meta_info (version : Nat) (rows : List (String × String)) :
    Except MetaError Unit :=
  if (metaVersionQuery rows).length ≠ 0 then
    Except.ok ()
  else
    Except.error MetaError.IndexError

/-- `Database.db_write_dim_subject`: `CREATE TABLE dim_subject(...)`. -/
def db_write_dim_subject (cat : Catalog) : Catalog :=
  { cat with tables := cat.tables ++ ["dim_subject"] }

/-- `Database.db_validate_dim_subject`: `pass`. -/
def db_validate_dim_subject (_cat : Catalog) : Except MetaError Unit :=
  Except.ok ()

/-- `Database.db_write_fact_session`: `CREATE TABLE fact_session(...)`. -/
def db_write_fact_session (cat : Catalog) : Catalog :=
  { cat with tables := cat.tables ++ ["fact_session"] }

/-- `Database.db_validate_fact_session`: `pass`. -/
def db_validate_fact_session (_cat : Catalog) : Except MetaError Unit :=
  Except.ok ()

/-- `Database.first_connection`: enumerate `sqlite_master` once
(`init_tables_01`), then for each required table either create it or
validate it, in the fixed order `meta_info`, `dim_subject`,
`fact_session`. -/
def first_connection (version : Nat) (cat : Catalog) : Except MetaError Catalog := do
  let init_tables_01 := cat.tables
  let cat1 ←
    if "meta_info" ∉ init_tables_01 then
      pure (db_write_meta_info version cat)
    else do
      db_validate_meta_info version cat.metaRows
      pure cat
  let cat2 ←
    if "dim_subject" ∉ init_tables_01 then
      pure (db_write_dim_subject cat1)
    else do
      db_validate_dim_subject cat1
      pure cat1
  let cat3 ←
    if "fact_session" ∉ init_tables_01 then
      pure (db_write_fact_session cat2)
    else do
      db_validate_fact_session cat2
      pure cat2
  pure cat3

/-! ## Repository operations -/

/-- `AddSubjectScreen.on_input_submitted`: trim the input, report an empty
name, report a case-insensitive duplicate, otherwise draw `uuid4()`
candidates from `gen` until one avoids every existing `subject_id`
(`Nat.find hgen` is the index of the first fresh candidate, mirroring the
`while new_subject_id in subject_ids` loop) and `INSERT` the row with both
timestamps equal to `now`, committing.  The first component of the result
is the store after the call; the second is the outcome reported to the
user. -/
def addSubject (st : DBState) (name : String) (gen : Nat → String)
    (hgen : ∃ n, gen n ∉ subjectIds st) (now : Nat) :
    DBState × Except SubjectError Subject :=
  if pyStrip name = "" then
    (st, Except.error SubjectError.EmptyName)
  else if pyLower (pyStrip name) ∈ subjectNamesLower st then
    (st, Except.error SubjectError.DuplicateName)
  else
    ({ st with subjects :=
        st.subjects ++ [⟨gen (Nat.find hgen), pyStrip name, now, now⟩] },
     Except.ok ⟨gen (Nat.find hgen), pyStrip name, now, now⟩)

/-- `EditSubjectScreen.on_input_submitted`: trim the input, report an empty
name, report `NoChange` when the trimmed name equals the highlighted row's
current name exactly, report a duplicate when it matches any stored
subject name case-insensitively (the query includes the row being edited),
otherwise dismiss with the accepted new name. -/
def renameSubjectValidate (namesLower : List String) (curName raw : String) :
    Except SubjectError String :=
  if pyStrip raw = "" then
    Except.error SubjectError.EmptyName
  else if pyStrip raw = curName then
    Except.error SubjectError.NoChange
  else if pyLower (pyStrip raw) ∈ namesLower then
    Except.error SubjectError.DuplicateName
  else
    Except.ok (pyStrip raw)

/-- `db_edit_row` inside `SubjectsScreen.action_edit_subject`:
`UPDATE dim_subject SET subject_name = ?, updated_time = ? WHERE
subject_id = ?;` committed immediately. -/
def db_edit_row (st : DBState) (sid newName : String) (now : Nat) : DBState :=
  { st with subjects := st.subjects.map (fun t =>
      if t.subject_id = sid then
        { t with subject_name := newName, updated_time := now }
      else t) }

/-- The whole rename flow: `EditSubjectScreen` validates against the
highlighted row's current name `curName` and, on acceptance,
`SubjectsScreen.action_edit_subject` runs the `UPDATE` with
`updated_time = now`. -/
def renameSubject (st : DBState) (sid curName raw : String) (now : Nat) :
    DBState × Except SubjectError Unit :=
  match renameSubjectValidate (subjectNamesLower st) curName raw with
  | Except.error e => (st, Except.error e)
  | Except.ok newName => (db_edit_row st sid newName now, Except.ok ())

/-- Modelled from the spec: `deleteSubject` is declared by the `d` binding
of `SubjectsScreen` (tooltip "Delete the currently selected subject and
all related study sessions") but no `action_delete_subject` implementation
exists under `src/`; the spec's §4.3 describes it as removing the subject
and cascading deletion to all sessions whose `subject_id` matches, as one
atomic operation. -/
def deleteSubject (st : DBState) (sid : String) : DBState :=
  { subjects := st.subjects.filter (fun s => ¬ s.subject_id = sid),
    sessions := st.sessions.filter (fun s => ¬ s.subject_id = sid) }

/-- Modelled from the spec: the session lifecycle is not implemented under
`src/` (`NewStudySessionScreen` is a placeholder rendering a label); the
spec's §4.3 describes `endSession` as failing with `NotFound` when no such
session exists or it is already finalized, and otherwise setting
`end_time = now`, `duration = end_time - start_time`, and committing. -/
def endSession (st : DBState) (sid : String) (now : Nat) :
    DBState × Except SubjectError Session :=
  match st.sessions.find? (fun s => s.session_id = sid) with
  | none => (st, Except.error SubjectError.NotFound)
  | some s =>
    match s.end_time with
    | some _ => (st, Except.error SubjectError.NotFound)
    | none =>
      let s' : Session :=
        { s with end_time := some now,
                 duration := some ((now : Int) - (s.start_time : Int)) }
      ({ st with sessions := st.sessions.map (fun t =>
          if t.session_id = sid then s' else t) },
       Except.ok s')

/-- A concrete identifier stream used to instantiate `gen` in witnesses. -/
def genConst : Nat → String :=
  fun k => "id-" ++ toString k

/-! ## Helper lemmas -/

theorem genConst_fresh_empty : ∃ n, genConst n ∉ subjectIds ⟨[], []⟩ :=
  ⟨0, by simp [subjectIds]⟩

theorem renameSubjectValidate_ok (nl : List String) (cur raw v : String)
    (h : renameSubjectValidate nl cur raw = Except.ok v) : v = pyStrip raw := by
  unfold renameSubjectValidate at h
  by_cases h1 : pyStrip raw = ""
  · rw [if_pos h1] at h; exact absurd h (by simp)
  · rw [if_neg h1] at h
    by_cases h2 : pyStrip raw = cur
    · rw [if_pos h2] at h; exact absurd h (by simp)
    · rw [if_neg h2] at h
      by_cases h3 : pyLower (pyStrip raw) ∈ nl
      · rw [if_pos h3] at h; exact absurd h (by simp)
      · rw [if_neg h3] at h
        exact (Except.ok.inj h).symm

theorem find_first_replaced (l : List Session) (sid : String) (s' : Session)
    (hps : s'.session_id = sid) (hex : ∃ x ∈ l, x.session_id = sid) :
    (l.map (fun t => if t.session_id = sid then s' else t)).find?
      (fun t => t.session_id = sid) = some s' := by
  induction l with
  | nil =>
    obtain ⟨x, hx, _⟩ := hex
    exact absurd hx (List.not_mem_nil x)
  | cons a l ih =>
    simp only [List.map_cons]
    by_cases h : a.session_id = sid
    · rw [if_pos h]
      rw [List.find?_cons_of_pos]
      exact decide_eq_true hps
    · rw [if_neg h, List.find?_cons_of_neg]
      · apply ih
        obtain ⟨x, hx, hpx⟩ := hex
        cases List.mem_cons.mp hx with
        | inl heq => exact absurd (heq ▸ hpx) h
        | inr hmem => exact ⟨x, hmem, hpx⟩
      · simpa using h

/-! ## Claim theorems -/

/-- C10: in `db_validate_meta_info` the indexing `meta_info_version_check[0][0]`
is evaluated exactly when the Version query returns zero rows, raising an
out-of-bounds `IndexError` (not the version-mismatch `NotImplementedError`);
whenever at least one Version row exists the function returns without
raising, for every stored and configured version value. -/
theorem db_validate_meta_info_spec (version : Nat) (rows : List (String × String)) :
    (metaVersionQuery rows = [] →
      db_validate_meta_info version rows = Except.error MetaError.IndexError)
  ∧ (metaVersionQuery rows ≠ [] →
      db_validate_meta_info version rows = Except.ok ()) := by
  constructor
  · intro h
    simp [db_validate_meta_info, h]
  · intro h
    simp [db_validate_meta_info, List.length_eq_zero, h]

theorem db_validate_meta_info_spec_witness :
    (metaVersionQuery [] = [] ∧
      db_validate_meta_info 3 [] = Except.error MetaError.IndexError)
    ∧ (metaVersionQuery [("Version", "2")] ≠ [] ∧
      db_validate_meta_info 1 [("Version", "2")] = Except.ok ()) :=
  ⟨⟨by decide, (db_validate_meta_info_spec 3 []).1 (by decide)⟩,
   ⟨by decide, (db_validate_meta_info_spec 1 [("Version", "2")]).2 (by decide)⟩⟩

/-- C2: evaluating `db_validate_meta_info` with configured version 1 against
a meta table storing version "2" returns success instead of failing
fatally: the guard `not (len(check) or int(check[0][0]) == self.version)`
short-circuits on the non-empty result and never compares the versions. -/
theorem db_validate_meta_info_mismatch_eval :
    db_validate_meta_info 1 [("Version", "2")] = Except.ok ()
    ∧ ("2" : String) ≠ toString (1 : Nat) := by decide

/-- C3: loading a settings file that contains the recognized key
`database_file` raises `KeyError("database-file")` instead of returning the
stored value: the source checks for the key `"database_file"` but then
subscripts the settings with `"database-file"`. -/
theorem configInit_database_file_eval :
    configInit [("database_file", JsonValue.str "custom.db")]
      = Except.error (ConfigError.KeyError "database-file")
    ∧ configInit [] = Except.ok
        ⟨JsonValue.str "studytime.db", JsonValue.num 1, JsonValue.str "unipd-dark"⟩ := by
  decide

/-- C6: initializing against an empty catalog creates exactly the three
tables in the order `meta_info`, `dim_subject`, `fact_session` and seeds
`meta_info` with the single Version record from the configured schema
version; a second initialization against the resulting store returns it
unchanged and raises no error. -/
theorem first_connection_spec (version : Nat) :
    first_connection version ⟨[], []⟩
      = Except.ok ⟨["meta_info", "dim_subject", "fact_session"],
                   [("Version", toString version)]⟩
  ∧ (∀ cat : Catalog, first_connection version ⟨[], []⟩ = Except.ok cat →
      first_connection version cat = Except.ok cat) := by
  have h0 : first_connection version ⟨[], []⟩
      = Except.ok ⟨["meta_info", "dim_subject", "fact_session"],
                   [("Version", toString version)]⟩ := rfl
  refine ⟨h0, ?_⟩
  intro cat hcat
  have h1 : cat = ⟨["meta_info", "dim_subject", "fact_session"],
      [("Version", toString version)]⟩ := Except.ok.inj (hcat.symm.trans h0)
  subst h1
  rfl

theorem first_connection_spec_witness :
    first_connection 1 ⟨[], []⟩
      = Except.ok ⟨["meta_info", "dim_subject", "fact_session"], [("Version", "1")]⟩
    ∧ first_connection 1
        ⟨["meta_info", "dim_subject", "fact_session"], [("Version", "1")]⟩
      = Except.ok ⟨["meta_info", "dim_subject", "fact_session"], [("Version", "1")]⟩ :=
  ⟨(first_connection_spec 1).1,
   (first_connection_spec 1).2
     ⟨["meta_info", "dim_subject", "fact_session"], [("Version", "1")]⟩
     (first_connection_spec 1).1⟩

/-- C1: `addSubject` trims the input; an empty trimmed name fails with
`EmptyName`; a trimmed name matching an existing subject's name under
case-insensitive comparison fails with `DuplicateName`; otherwise a new
subject is inserted whose identifier differs from every existing
`subject_id` and whose `added_time` and `updated_time` both equal the
creation timestamp. -/
theorem addSubject_spec (st : DBState) (name : String) (gen : Nat → String)
    (hgen : ∃ n, gen n ∉ subjectIds st) (now : Nat) :
    (pyStrip name = "" →
      addSubject st name gen hgen now = (st, Except.error SubjectError.EmptyName))
  ∧ (pyStrip name ≠ "" → pyLower (pyStrip name) ∈ subjectNamesLower st →
      addSubject st name gen hgen now = (st, Except.error SubjectError.DuplicateName))
  ∧ (pyStrip name ≠ "" → pyLower (pyStrip name) ∉ subjectNamesLower st →
      ∃ s : Subject,
        addSubject st name gen hgen now
          = ({ st with subjects := st.subjects ++ [s] }, Except.ok s)
        ∧ s.subject_name = pyStrip name
        ∧ s.subject_id ∉ subjectIds st
        ∧ s.added_time = now ∧ s.updated_time = now) := by
  refine ⟨?_, ?_, ?_⟩
  · intro h
    unfold addSubject
    rw [if_pos h]
  · intro h1 h2
    unfold addSubject
    rw [if_neg h1, if_pos h2]
  · intro h1 h2
    refine ⟨⟨gen (Nat.find hgen), pyStrip name, now, now⟩, ?_, rfl,
      Nat.find_spec hgen, rfl, rfl⟩
    unfold addSubject
    rw [if_neg h1, if_neg h2]

theorem addSubject_spec_witness :
    (pyStrip "  Math  " ≠ ""
      ∧ pyLower (pyStrip "  Math  ") ∉ subjectNamesLower ⟨[], []⟩)
    ∧ (∃ s : Subject,
        addSubject ⟨[], []⟩ "  Math  " genConst genConst_fresh_empty 5
          = ({ subjects := [] ++ [s], sessions := [] }, Except.ok s)
        ∧ s.subject_name = pyStrip "  Math  "
        ∧ s.subject_id ∉ subjectIds ⟨[], []⟩
        ∧ s.added_time = 5 ∧ s.updated_time = 5) :=
  ⟨⟨by decide, by decide⟩,
   (addSubject_spec ⟨[], []⟩ "  Math  " genConst genConst_fresh_empty 5).2.2
     (by decide) (by decide)⟩

/-- C4 counterexample: with a single stored subject `("id1", "Math")`,
renaming it to `"MATH"` — a change of letter case only, against no other
subject — is rejected with `DuplicateName`, because the duplicate check
compares against every stored name including the subject's own. -/
theorem renameSubject_case_change_cex :
    (renameSubject ⟨[⟨"id1", "Math", 0, 0⟩], []⟩ "id1" "Math" "MATH" 5).2
      = Except.error SubjectError.DuplicateName
    ∧ (∀ s ∈ (⟨[⟨"id1", "Math", 0, 0⟩], []⟩ : DBState).subjects,
        s.subject_id = "id1")
    ∧ pyStrip "MATH" ≠ "" ∧ pyStrip "MATH" ≠ "Math" := by decide

/-- C4 (amended): on a trimmed non-empty new name, `renameSubject` fails
with `NoChange` exactly when the new name equals the subject's current
name character-for-character, and fails with `DuplicateName` exactly when
the new name matches, case-insensitively, the name of any stored subject
(including the one being renamed); in particular changing only the letter
case of a subject's own name fails with `DuplicateName`, and a name
matching no stored name succeeds. -/
theorem renameSubject_validation_spec (st : DBState) (sid curName raw : String)
    (now : Nat) (hne : pyStrip raw ≠ "") :
    ((renameSubject st sid curName raw now).2 = Except.error SubjectError.NoChange
      ↔ pyStrip raw = curName)
  ∧ (pyStrip raw ≠ curName →
      ((renameSubject st sid curName raw now).2
          = Except.error SubjectError.DuplicateName
        ↔ pyLower (pyStrip raw) ∈ subjectNamesLower st))
  ∧ (pyStrip raw ≠ curName → pyLower (pyStrip raw) ∉ subjectNamesLower st →
      (renameSubject st sid curName raw now).2 = Except.ok ()) := by
  unfold renameSubject renameSubjectValidate
  rw [if_neg hne]
  by_cases h2 : pyStrip raw = curName
  · rw [if_pos h2]
    simp [h2]
  · rw [if_neg h2]
    by_cases h3 : pyLower (pyStrip raw) ∈ subjectNamesLower st
    · rw [if_pos h3]
      simp [h2, h3]
    · rw [if_neg h3]
      simp [h2, h3]

theorem renameSubject_validation_spec_witness :
    pyStrip "Maths" ≠ ""
    ∧ ((renameSubject ⟨[⟨"id1", "Math", 0, 0⟩], []⟩ "id1" "Math" "Maths" 5).2
        = Except.error SubjectError.NoChange ↔ pyStrip "Maths" = "Math")
    ∧ (pyStrip "Maths" ≠ "Math" →
        pyLower (pyStrip "Maths") ∉ subjectNamesLower ⟨[⟨"id1", "Math", 0, 0⟩], []⟩ →
        (renameSubject ⟨[⟨"id1", "Math", 0, 0⟩], []⟩ "id1" "Math" "Maths" 5).2
          = Except.ok ()) :=
  ⟨by decide,
   (renameSubject_validation_spec ⟨[⟨"id1", "Math", 0, 0⟩], []⟩
      "id1" "Math" "Maths" 5 (by decide)).1,
   (renameSubject_validation_spec ⟨[⟨"id1", "Math", 0, 0⟩], []⟩
      "id1" "Math" "Maths" 5 (by decide)).2.2⟩

/-- C5: a successful rename leaves the sessions untouched and maps the
subject list so that only the row with the edited `subject_id` changes,
and it changes only in `subject_name` and `updated_time`; the edited
row keeps its `subject_id` and `added_time`, gets `updated_time = now`,
and when the edit happens after creation (`added_time < now`) the row
afterwards satisfies `added_time < updated_time`. -/
theorem renameSubject_frame_spec (st : DBState) (sid curName raw : String)
    (now : Nat)
    (hok : (renameSubject st sid curName raw now).2 = Except.ok ()) :
    ((renameSubject st sid curName raw now).1).sessions = st.sessions
  ∧ ((renameSubject st sid curName raw now).1).subjects
      = st.subjects.map (fun t =>
          if t.subject_id = sid then
            { t with subject_name := pyStrip raw, updated_time := now }
          else t)
  ∧ (∀ t ∈ st.subjects, t.subject_id = sid → t.added_time < now →
      ∃ t' ∈ ((renameSubject st sid curName raw now).1).subjects,
        t'.subject_id = t.subject_id ∧ t'.added_time = t.added_time
        ∧ t'.updated_time = now ∧ t'.added_time < t'.updated_time) := by
  cases hv : renameSubjectValidate (subjectNamesLower st) curName raw with
  | error e =>
    rw [renameSubject, hv] at hok
    exact absurd hok (by simp)
  | ok newName =>
    have hnew : newName = pyStrip raw :=
      renameSubjectValidate_ok (subjectNamesLower st) curName raw newName hv
    subst hnew
    have hfst : (renameSubject st sid curName raw now).1
        = db_edit_row st sid (pyStrip raw) now := by
      rw [renameSubject, hv]
    refine ⟨by rw [hfst]; rfl, by rw [hfst]; rfl, ?_⟩
    intro t ht hid hlt
    refine ⟨{ t with subject_name := pyStrip raw, updated_time := now },
      ?_, rfl, rfl, rfl, hlt⟩
    rw [hfst]
    have hmem := List.mem_map_of_mem
      (fun t : Subject =>
        if t.subject_id = sid then
          { t with subject_name := pyStrip raw, updated_time := now }
        else t) ht
    simp only [hid, if_pos] at hmem
    simp only [db_edit_row, hid]
    exact hmem

theorem renameSubject_frame_spec_witness :
    ((renameSubject ⟨[⟨"id1", "Math", 0, 0⟩], [⟨"s1", "id1", 3, none, none⟩]⟩
        "id1" "Math" "Bio" 5).2 = Except.ok ())
    ∧ ((renameSubject ⟨[⟨"id1", "Math", 0, 0⟩], [⟨"s1", "id1", 3, none, none⟩]⟩
        "id1" "Math" "Bio" 5).1).sessions = [⟨"s1", "id1", 3, none, none⟩]
    ∧ ((renameSubject ⟨[⟨"id1", "Math", 0, 0⟩], [⟨"s1", "id1", 3, none, none⟩]⟩
        "id1" "Math" "Bio" 5).1).subjects
        = [⟨"id1", "Math", 0, 0⟩].map (fun t =>
            if t.subject_id = "id1" then
              { t with subject_name := pyStrip "Bio", updated_time := 5 }
            else t) :=
  ⟨by decide,
   (renameSubject_frame_spec ⟨[⟨"id1", "Math", 0, 0⟩], [⟨"s1", "id1", 3, none, none⟩]⟩
      "id1" "Math" "Bio" 5 (by decide)).1,
   (renameSubject_frame_spec ⟨[⟨"id1", "Math", 0, 0⟩], [⟨"s1", "id1", 3, none, none⟩]⟩
      "id1" "Math" "Bio" 5 (by decide)).2.1⟩

/-- C9: when `addSubject` or `renameSubject` reports an error, the store
component of the result equals the input store: the failing paths perform
no write. -/
theorem failed_calls_leave_state (st : DBState) :
    (∀ (name : String) (gen : Nat → String)
        (hgen : ∃ n, gen n ∉ subjectIds st) (now : Nat) (e : SubjectError),
      (addSubject st name gen hgen now).2 = Except.error e →
      (addSubject st name gen hgen now).1 = st)
  ∧ (∀ (sid curName raw : String) (now : Nat) (e : SubjectError),
      (renameSubject st sid curName raw now).2 = Except.error e →
      (renameSubject st sid curName raw now).1 = st) := by
  constructor
  · intro name gen hgen now e h
    by_cases h1 : pyStrip name = ""
    · unfold addSubject
      rw [if_pos h1]
    · by_cases h2 : pyLower (pyStrip name) ∈ subjectNamesLower st
      · unfold addSubject
        rw [if_neg h1, if_pos h2]
      · unfold addSubject at h
        rw [if_neg h1, if_neg h2] at h
        exact absurd h (by simp)
  · intro sid curName raw now e h
    cases hv : renameSubjectValidate (subjectNamesLower st) curName raw with
    | error e2 =>
      rw [renameSubject, hv]
    | ok newName =>
      rw [renameSubject, hv] at h
      exact absurd h (by simp)

theorem failed_calls_leave_state_witness :
    ((addSubject ⟨[⟨"id1", "Math", 0, 0⟩], []⟩ "   " genConst
        ⟨0, by decide⟩ 5).2 = Except.error SubjectError.EmptyName)
    ∧ (addSubject ⟨[⟨"id1", "Math", 0, 0⟩], []⟩ "   " genConst
        ⟨0, by decide⟩ 5).1 = ⟨[⟨"id1", "Math", 0, 0⟩], []⟩
    ∧ ((renameSubject ⟨[⟨"id1", "Math", 0, 0⟩], []⟩ "id1" "Math" "Math" 5).2
        = Except.error SubjectError.NoChange)
    ∧ (renameSubject ⟨[⟨"id1", "Math", 0, 0⟩], []⟩ "id1" "Math" "Math" 5).1
        = ⟨[⟨"id1", "Math", 0, 0⟩], []⟩ :=
  ⟨by decide,
   (failed_calls_leave_state ⟨[⟨"id1", "Math", 0, 0⟩], []⟩).1 "   " genConst
     ⟨0, by decide⟩ 5 SubjectError.EmptyName (by decide),
   by decide,
   (failed_calls_leave_state ⟨[⟨"id1", "Math", 0, 0⟩], []⟩).2 "id1" "Math" "Math" 5
     SubjectError.NoChange (by decide)⟩

/-- C7: `deleteSubject` removes the subject with the given identifier and
every session referencing it in one state transformation: afterwards no
subject returned by `listSubjects` and no session returned by
`listSessions` carries that identifier, while every other subject and
session is retained. -/
theorem deleteSubject_spec (st : DBState) (sid : String) :
    (∀ s ∈ listSubjects (deleteSubject st sid), s.subject_id ≠ sid)
  ∧ (∀ s ∈ listSessions (deleteSubject st sid), s.subject_id ≠ sid)
  ∧ (∀ s ∈ st.subjects, s.subject_id ≠ sid →
      s ∈ listSubjects (deleteSubject st sid))
  ∧ (∀ s ∈ st.sessions, s.subject_id ≠ sid →
      s ∈ listSessions (deleteSubject st sid)) := by
  refine ⟨?_, ?_, ?_, ?_⟩
  · intro s hs
    simp only [listSubjects, deleteSubject, List.mem_filter,
      decide_not, Bool.not_eq_true', decide_eq_false_iff_not] at hs
    exact hs.2
  · intro s hs
    simp only [listSessions, deleteSubject, List.mem_filter,
      decide_not, Bool.not_eq_true', decide_eq_false_iff_not] at hs
    exact hs.2
  · intro s hs hne
    simp only [listSubjects, deleteSubject, List.mem_filter,
      decide_not, Bool.not_eq_true', decide_eq_false_iff_not]
    exact ⟨hs, hne⟩
  · intro s hs hne
    simp only [listSessions, deleteSubject, List.mem_filter,
      decide_not, Bool.not_eq_true', decide_eq_false_iff_not]
    exact ⟨hs, hne⟩

theorem deleteSubject_spec_witness :
    (∀ s ∈ listSubjects (deleteSubject
        ⟨[⟨"a", "Math", 0, 0⟩, ⟨"b", "Bio", 1, 1⟩],
         [⟨"s1", "a", 3, none, none⟩, ⟨"s2", "b", 4, none, none⟩]⟩ "a"),
      s.subject_id ≠ "a")
    ∧ (∀ s ∈ listSessions (deleteSubject
        ⟨[⟨"a", "Math", 0, 0⟩, ⟨"b", "Bio", 1, 1⟩],
         [⟨"s1", "a", 3, none, none⟩, ⟨"s2", "b", 4, none, none⟩]⟩ "a"),
      s.subject_id ≠ "a") :=
  ⟨(deleteSubject_spec
      ⟨[⟨"a", "Math", 0, 0⟩, ⟨"b", "Bio", 1, 1⟩],
       [⟨"s1", "a", 3, none, none⟩, ⟨"s2", "b", 4, none, none⟩]⟩ "a").1,
   (deleteSubject_spec
      ⟨[⟨"a", "Math", 0, 0⟩, ⟨"b", "Bio", 1, 1⟩],
       [⟨"s1", "a", 3, none, none⟩, ⟨"s2", "b", 4, none, none⟩]⟩ "a").2.1⟩

/-- C8: `endSession` fails with `NotFound` when no session carries the
identifier or when the first such session is already finalized; on success
the returned session has `end_time = now`,
`duration = end_time - start_time`, the identifier asked for, the subjects
are untouched, and a second `endSession` on the same identifier against
the resulting store always fails with `NotFound`. -/
theorem endSession_spec (st : DBState) (sid : String) (now : Nat) :
    ((∀ s ∈ st.sessions, s.session_id ≠ sid) →
      endSession st sid now = (st, Except.error SubjectError.NotFound))
  ∧ (∀ s : Session, st.sessions.find? (fun t => t.session_id = sid) = some s →
      s.end_time ≠ none →
      endSession st sid now = (st, Except.error SubjectError.NotFound))
  ∧ (∀ (st' : DBState) (s' : Session),
      endSession st sid now = (st', Except.ok s') →
      s'.end_time = some now
      ∧ s'.duration = some ((now : Int) - (s'.start_time : Int))
      ∧ s'.session_id = sid
      ∧ st'.subjects = st.subjects
      ∧ ∀ now2 : Nat,
          endSession st' sid now2 = (st', Except.error SubjectError.NotFound)) := by
  refine ⟨?_, ?_, ?_⟩
  · intro h
    have hf : st.sessions.find? (fun t => t.session_id = sid) = none := by
      rw [List.find?_eq_none]
      intro x hx
      simpa using h x hx
    unfold endSession
    rw [hf]
  · intro s hf hend
    unfold endSession
    rw [hf]
    cases he : s.end_time with
    | none => exact absurd he hend
    | some v => simp [he]
  · intro st' s' h
    cases hf : st.sessions.find? (fun t => t.session_id = sid) with
    | none =>
      unfold endSession at h
      rw [hf] at h
      simp at h
    | some s =>
      unfold endSession at h
      rw [hf] at h
      cases he : s.end_time with
      | some v =>
        simp [he] at h
      | none =>
        simp only [he] at h
        have hps := List.find?_some hf
        have hsid : s.session_id = sid := by simpa using hps
        have hmem : s ∈ st.sessions := List.mem_of_find?_eq_some hf
        injection h with h1 h2
        injection h2 with h3
        subst h1
        subst h3
        refine ⟨rfl, rfl, hsid, rfl, ?_⟩
        intro now2
        have hf2 : (st.sessions.map (fun t =>
            if t.session_id = sid then
              { s with end_time := some now,
                       duration := some ((now : Int) - (s.start_time : Int)) }
            else t)).find? (fun t => t.session_id = sid)
            = some { s with end_time := some now,
                            duration := some ((now : Int) - (s.start_time : Int)) } :=
          find_first_replaced st.sessions sid _ hsid ⟨s, hmem, hsid⟩
        unfold endSession
        rw [hf2]

theorem endSession_spec_witness :
    endSession ⟨[], []⟩ "s1" 10 = (⟨[], []⟩, Except.error SubjectError.NotFound)
    ∧ endSession ⟨[], [⟨"s1", "a", 3, some 10, some 7⟩]⟩ "s1" 12
        = (⟨[], [⟨"s1", "a", 3, some 10, some 7⟩]⟩,
           Except.error SubjectError.NotFound) :=
  ⟨(endSession_spec ⟨[], []⟩ "s1" 10).1 (by decide),
   (endSession_spec ⟨[], [⟨"s1", "a", 3, some 10, some 7⟩]⟩ "s1" 12).2.1
     ⟨"s1", "a", 3, some 10, some 7⟩ (by decide) (by decide)⟩
